import Mathlib

/-!
# wxDragon C wrapper layer: tree-list control and system options

A shallow embedding of `cpp/src/treelistctrl.cpp` and `cpp/src/wxd_sysopt.cpp`.

Every exported function of these files casts its handle, possibly checks it
for null, converts a few integers and forwards to one method of the GUI
toolkit.  The embedding keeps exactly that:

* a pointer argument is an `Option` (`none` is the null pointer);
* `int`, `long` and `wxd_Long_t` values are `Int`, `unsigned` values are `Nat`;
  the only arithmetic conversion in the sources, `(size_t)buffer_len`, is
  written out with an explicit modulus;
* the toolkit is not executed: a wrapper returns the list of toolkit calls it
  makes, with the arguments it hands over (`Outcome.calls`), and its return
  value (`Outcome.ret`); what a toolkit method answers is read from the
  control record `wxTreeListCtrl`, whose fields are the answers the live
  object would give.
-/

namespace WxDragon

/-! ## Toolkit types -/

/-- The toolkit's `wxString`; `wxString::FromUTF8` of valid text is the text. -/
abbrev wxString := String

/-- The toolkit enumeration `wxCheckBoxState`. A C++ unscoped enumeration is an
integer type with named values, so a state is carried as its integer value;
`static_cast<wxCheckBoxState>(n)` is `⟨n⟩`. -/
structure wxCheckBoxState where
  val : Int
deriving DecidableEq, Repr

/-- The toolkit enumeration `wxAlignment`, carried as its integer value. -/
structure wxAlignment where
  val : Int
deriving DecidableEq, Repr

/-- The toolkit's `wxTreeListItem`: a wrapper around a node pointer, which
`GetID` gives back. `reinterpret_cast<wxTreeListModelNode*>(h)` followed by the
constructor is `⟨h⟩`; `(wxd_Long_t)item.GetID()` is `item.GetID`. -/
structure wxTreeListItem where
  GetID : Int
deriving DecidableEq, Repr

/-- The array type `wxTreeListItems` filled by `GetSelections`. -/
abbrev wxTreeListItems := List wxTreeListItem

/-- The C struct `wxd_Point` of the binding layer. -/
structure wxd_Point where
  x : Int
  y : Int
deriving DecidableEq, Repr

/-- The C struct `wxd_Size` of the binding layer. -/
structure wxd_Size where
  width : Int
  height : Int
deriving DecidableEq, Repr

/-- A `char*` handed in by the caller: `none` is null, `some a` is the
address `a` of the caller's storage. -/
abbrev CharBuffer := Option Nat

/-- One call made by a wrapper into the toolkit (or into the copy helper of
`wxd_utils.h`), with the arguments handed over. -/
inductive ToolkitCall where
  | new_wxTreeListCtrl (parent : Option Nat) (id : Int) (pos : wxd_Point) (size : wxd_Size)
      (wxStyle : Int)
  | AppendColumn (text : wxString) (width : Int) (alignment : wxAlignment)
  | GetColumnCount
  | SetColumnWidth (col : Int) (width : Int)
  | GetColumnWidth (col : Int)
  | GetRootItem
  | AppendItem (parent : wxTreeListItem) (text : wxString)
  | DeleteItem (item : wxTreeListItem)
  | DeleteAllItems
  | SetItemText (item : wxTreeListItem) (col : Int) (text : wxString)
  | GetItemText (item : wxTreeListItem) (col : Int)
  | copy_wxstring_to_buffer (text : wxString) (buffer : CharBuffer) (buffer_len : Nat)
  | Expand (item : wxTreeListItem)
  | Collapse (item : wxTreeListItem)
  | IsExpanded (item : wxTreeListItem)
  | GetSelection
  | Select (item : wxTreeListItem)
  | UnselectAll
  | CheckItem (item : wxTreeListItem) (checkState : wxCheckBoxState)
  | GetCheckedState (item : wxTreeListItem)
  | CheckItemRecursively (item : wxTreeListItem) (checkState : wxCheckBoxState)
  | UpdateItemParentStateRecursively (item : wxTreeListItem)
  | DeleteColumn (col : Nat)
  | ClearColumns
  | WidthFor (text : wxString)
  | InsertItem (parent : wxTreeListItem) (previous : wxTreeListItem) (text : wxString)
  | PrependItem (parent : wxTreeListItem) (text : wxString)
  | GetItemParent (item : wxTreeListItem)
  | GetFirstChild (item : wxTreeListItem)
  | GetNextSibling (item : wxTreeListItem)
  | GetNextItem (item : wxTreeListItem)
  | GetFirstItem
  | SetItemImage (item : wxTreeListItem) (closed : Int) (opened : Int)
  | GetSelections
  | Unselect (item : wxTreeListItem)
  | IsSelected (item : wxTreeListItem)
  | SelectAll
  | EnsureVisible (item : wxTreeListItem)
  | UncheckItem (item : wxTreeListItem)
  | AreAllChildrenInState (item : wxTreeListItem) (checkState : wxCheckBoxState)
  | SetSortColumn (col : Nat) (ascending : Bool)
  | GetSortColumn (col : Option Nat) (ascending : Option Nat)
  | SystemOptions_SetOption_String (name : wxString) (value : wxString)
  | SystemOptions_SetOption_Int (name : wxString) (value : Int)
  | SystemOptions_GetOption (name : wxString)
  | SystemOptions_GetOptionInt (name : wxString)
  | SystemOptions_HasOption (name : wxString)
  | SystemOptions_IsFalse (name : wxString)
deriving DecidableEq, Repr

/-- What a wrapper does: the toolkit calls it makes, in order, and the value
it returns to the caller. -/
structure Outcome (α : Type) where
  calls : List ToolkitCall
  ret : α

/-- A live `wxTreeListCtrl` object as the wrappers see it: for every
value-returning method the wrappers call, the answer the object gives. For
`GetSelections` the field is the array the toolkit fills; the method's return
value is the number of items it put there. -/
structure wxTreeListCtrl where
  AppendColumn : wxString → Int → wxAlignment → Int
  GetColumnCount : Int
  GetColumnWidth : Int → Int
  GetRootItem : wxTreeListItem
  AppendItem : wxTreeListItem → wxString → wxTreeListItem
  GetItemText : wxTreeListItem → Int → wxString
  IsExpanded : wxTreeListItem → Bool
  GetSelection : wxTreeListItem
  GetCheckedState : wxTreeListItem → wxCheckBoxState
  DeleteColumn : Nat → Bool
  WidthFor : wxString → Int
  InsertItem : wxTreeListItem → wxTreeListItem → wxString → wxTreeListItem
  PrependItem : wxTreeListItem → wxString → wxTreeListItem
  GetItemParent : wxTreeListItem → wxTreeListItem
  GetFirstChild : wxTreeListItem → wxTreeListItem
  GetNextSibling : wxTreeListItem → wxTreeListItem
  GetNextItem : wxTreeListItem → wxTreeListItem
  GetFirstItem : wxTreeListItem
  GetSelections : wxTreeListItems
  IsSelected : wxTreeListItem → Bool
  AreAllChildrenInState : wxTreeListItem → wxCheckBoxState → Bool
  GetSortColumn : Bool

/-- The process-wide `wxSystemOptions` store as the wrappers see it: the
answers of its static query methods. -/
structure wxSystemOptions where
  GetOption : wxString → wxString
  GetOptionInt : wxString → Int
  HasOption : wxString → Bool
  IsFalse : wxString → Bool

/-- The declarations the two source files take from headers that are not part
of the sources: the toolkit's style flags and enumerators (`wx/treelist.h`,
`wx/defs.h`), the constructor of the control, and the return value of the copy
helper `wxd_cpp_utils::copy_wxstring_to_buffer` (`wxd_utils.h`). Their values
are parameters of the embedding. -/
structure Toolkit where
  wxTL_CHECKBOX : Int
  wxTL_3STATE : Int
  wxCHK_UNCHECKED : wxCheckBoxState
  wxCHK_CHECKED : wxCheckBoxState
  wxCHK_UNDETERMINED : wxCheckBoxState
  wxALIGN_LEFT : wxAlignment
  wxALIGN_RIGHT : wxAlignment
  wxALIGN_CENTER : wxAlignment
  new_wxTreeListCtrl : Option Nat → Int → wxd_Point → wxd_Size → Int → wxTreeListCtrl
  copy_wxstring_to_buffer : wxString → CharBuffer → Nat → Int

/-- Width in bits of `size_t` on the 64-bit targets the library is built for. -/
def SIZE_BITS : Nat := 64

/-- The C conversion `(size_t)n` of an `int`: reduction modulo `2 ^ SIZE_BITS`. -/
def to_size_t (n : Int) : Nat := (n % (2 : Int) ^ SIZE_BITS).toNat

/-- The values of type `int`. -/
def isInt (n : Int) : Prop := -(2 : Int) ^ 31 ≤ n ∧ n < (2 : Int) ^ 31

instance (n : Int) : Decidable (isInt n) := by
  unfold isInt; infer_instance

/-! ## `treelistctrl.cpp` -/

/-- Source: `wxd_TreeListCtrl_Create`. -/
def wxd_TreeListCtrl_Create (T : Toolkit) (parent : Option Nat) (id : Int) (pos : wxd_Point)
    (size : wxd_Size) (style : Int) : Outcome (Option wxTreeListCtrl) :=
  let parentWin := parent
  let wxStyle : Int := 0
  let wxStyle := if Int.land style 1 ≠ 0 then Int.lor wxStyle T.wxTL_CHECKBOX else wxStyle
  let wxStyle := if Int.land style 2 ≠ 0 then Int.lor wxStyle T.wxTL_3STATE else wxStyle
  let ctrl := T.new_wxTreeListCtrl parentWin id pos size wxStyle
  ⟨[.new_wxTreeListCtrl parentWin id pos size wxStyle], some ctrl⟩

/-- Source: `wxd_TreeListCtrl_AppendColumn`. -/
def wxd_TreeListCtrl_AppendColumn (T : Toolkit) (self : Option wxTreeListCtrl)
    (text : Option String) (width : Int) (align : Int) : Outcome Int :=
  match self, text with
  | some ctrl, some text =>
    let alignment :=
      if align = 1 then T.wxALIGN_RIGHT
      else if align = 2 then T.wxALIGN_CENTER
      else T.wxALIGN_LEFT
    ⟨[.AppendColumn text width alignment], ctrl.AppendColumn text width alignment⟩
  | _, _ => ⟨[], -1⟩

/-- Source: `wxd_TreeListCtrl_GetColumnCount`. -/
def wxd_TreeListCtrl_GetColumnCount (self : Option wxTreeListCtrl) : Outcome Int :=
  match self with
  | none => ⟨[], 0⟩
  | some ctrl => ⟨[.GetColumnCount], ctrl.GetColumnCount⟩

/-- Source: `wxd_TreeListCtrl_SetColumnWidth`. -/
def wxd_TreeListCtrl_SetColumnWidth (self : Option wxTreeListCtrl) (col : Int) (width : Int) :
    Outcome Unit :=
  match self with
  | some _ => ⟨[.SetColumnWidth col width], ()⟩
  | none => ⟨[], ()⟩

/-- Source: `wxd_TreeListCtrl_GetColumnWidth`. -/
def wxd_TreeListCtrl_GetColumnWidth (self : Option wxTreeListCtrl) (col : Int) : Outcome Int :=
  match self with
  | none => ⟨[], 0⟩
  | some ctrl => ⟨[.GetColumnWidth col], ctrl.GetColumnWidth col⟩

/-- Source: `wxd_TreeListCtrl_GetRootItem`. -/
def wxd_TreeListCtrl_GetRootItem (self : Option wxTreeListCtrl) : Outcome Int :=
  match self with
  | none => ⟨[], 0⟩
  | some ctrl =>
    let root := ctrl.GetRootItem
    ⟨[.GetRootItem], root.GetID⟩

/-- Source: `wxd_TreeListCtrl_AppendItem`. -/
def wxd_TreeListCtrl_AppendItem (self : Option wxTreeListCtrl) (parent : Int)
    (text : Option String) : Outcome Int :=
  match self, text with
  | some ctrl, some text =>
    let parentItem : wxTreeListItem := ⟨parent⟩
    let newItem := ctrl.AppendItem parentItem text
    ⟨[.AppendItem parentItem text], newItem.GetID⟩
  | _, _ => ⟨[], 0⟩

/-- Source: `wxd_TreeListCtrl_DeleteItem`. -/
def wxd_TreeListCtrl_DeleteItem (self : Option wxTreeListCtrl) (item : Int) : Outcome Unit :=
  match self with
  | some _ =>
    let treeItem : wxTreeListItem := ⟨item⟩
    ⟨[.DeleteItem treeItem], ()⟩
  | none => ⟨[], ()⟩

/-- Source: `wxd_TreeListCtrl_DeleteAllItems`. -/
def wxd_TreeListCtrl_DeleteAllItems (self : Option wxTreeListCtrl) : Outcome Unit :=
  match self with
  | some _ => ⟨[.DeleteAllItems], ()⟩
  | none => ⟨[], ()⟩

/-- Source: `wxd_TreeListCtrl_SetItemText`. -/
def wxd_TreeListCtrl_SetItemText (self : Option wxTreeListCtrl) (item : Int) (col : Int)
    (text : Option String) : Outcome Unit :=
  match self, text with
  | some _, some text =>
    let treeItem : wxTreeListItem := ⟨item⟩
    ⟨[.SetItemText treeItem col text], ()⟩
  | _, _ => ⟨[], ()⟩

/-- Source: `wxd_TreeListCtrl_GetItemText`. -/
def wxd_TreeListCtrl_GetItemText (T : Toolkit) (self : Option wxTreeListCtrl) (item : Int)
    (col : Int) (buffer : CharBuffer) (buffer_len : Int) : Outcome Int :=
  match self, buffer with
  | some ctrl, some b =>
    if buffer_len ≤ 0 then ⟨[], -1⟩
    else
      let treeItem : wxTreeListItem := ⟨item⟩
      let text := ctrl.GetItemText treeItem col
      ⟨[.GetItemText treeItem col,
        .copy_wxstring_to_buffer text (some b) (to_size_t buffer_len)],
       T.copy_wxstring_to_buffer text (some b) (to_size_t buffer_len)⟩
  | _, _ => ⟨[], -1⟩

/-- Source: `wxd_TreeListCtrl_Expand`. -/
def wxd_TreeListCtrl_Expand (self : Option wxTreeListCtrl) (item : Int) : Outcome Unit :=
  match self with
  | some _ =>
    let treeItem : wxTreeListItem := ⟨item⟩
    ⟨[.Expand treeItem], ()⟩
  | none => ⟨[], ()⟩

/-- Source: `wxd_TreeListCtrl_Collapse`. -/
def wxd_TreeListCtrl_Collapse (self : Option wxTreeListCtrl) (item : Int) : Outcome Unit :=
  match self with
  | some _ =>
    let treeItem : wxTreeListItem := ⟨item⟩
    ⟨[.Collapse treeItem], ()⟩
  | none => ⟨[], ()⟩

/-- Source: `wxd_TreeListCtrl_IsExpanded`. -/
def wxd_TreeListCtrl_IsExpanded (self : Option wxTreeListCtrl) (item : Int) : Outcome Bool :=
  match self with
  | none => ⟨[], false⟩
  | some ctrl =>
    let treeItem : wxTreeListItem := ⟨item⟩
    ⟨[.IsExpanded treeItem], ctrl.IsExpanded treeItem⟩

/-- Source: `wxd_TreeListCtrl_GetSelection`. -/
def wxd_TreeListCtrl_GetSelection (self : Option wxTreeListCtrl) : Outcome Int :=
  match self with
  | none => ⟨[], 0⟩
  | some ctrl =>
    let selection := ctrl.GetSelection
    ⟨[.GetSelection], selection.GetID⟩

/-- Source: `wxd_TreeListCtrl_SelectItem`. -/
def wxd_TreeListCtrl_SelectItem (self : Option wxTreeListCtrl) (item : Int) : Outcome Unit :=
  match self with
  | some _ =>
    let treeItem : wxTreeListItem := ⟨item⟩
    ⟨[.Select treeItem], ()⟩
  | none => ⟨[], ()⟩

/-- Source: `wxd_TreeListCtrl_UnselectAll`. -/
def wxd_TreeListCtrl_UnselectAll (self : Option wxTreeListCtrl) : Outcome Unit :=
  match self with
  | some _ => ⟨[.UnselectAll], ()⟩
  | none => ⟨[], ()⟩

/-- Source: `wxd_TreeListCtrl_CheckItem`. -/
def wxd_TreeListCtrl_CheckItem (T : Toolkit) (self : Option wxTreeListCtrl) (item : Int)
    (state : Int) : Outcome Unit :=
  match self with
  | some _ =>
    let treeItem : wxTreeListItem := ⟨item⟩
    let checkState :=
      if state = 1 then T.wxCHK_CHECKED
      else if state = 2 then T.wxCHK_UNDETERMINED
      else T.wxCHK_UNCHECKED
    ⟨[.CheckItem treeItem checkState], ()⟩
  | none => ⟨[], ()⟩

/-- Source: `wxd_TreeListCtrl_GetCheckedState`. -/
def wxd_TreeListCtrl_GetCheckedState (T : Toolkit) (self : Option wxTreeListCtrl) (item : Int) :
    Outcome Int :=
  match self with
  | none => ⟨[], 0⟩
  | some ctrl =>
    let treeItem : wxTreeListItem := ⟨item⟩
    let state := ctrl.GetCheckedState treeItem
    ⟨[.GetCheckedState treeItem],
      if state = T.wxCHK_CHECKED then 1
      else if state = T.wxCHK_UNDETERMINED then 2
      else 0⟩

/-- Source: `wxd_TreeListCtrl_CheckItemRecursively`. -/
def wxd_TreeListCtrl_CheckItemRecursively (T : Toolkit) (self : Option wxTreeListCtrl)
    (item : Int) (state : Int) : Outcome Unit :=
  match self with
  | some _ =>
    let treeItem : wxTreeListItem := ⟨item⟩
    let checkState :=
      if state = 1 then T.wxCHK_CHECKED
      else if state = 2 then T.wxCHK_UNDETERMINED
      else T.wxCHK_UNCHECKED
    ⟨[.CheckItemRecursively treeItem checkState], ()⟩
  | none => ⟨[], ()⟩

/-- Source: `wxd_TreeListCtrl_UpdateItemParentState`. -/
def wxd_TreeListCtrl_UpdateItemParentState (self : Option wxTreeListCtrl) (item : Int) :
    Outcome Unit :=
  match self with
  | some _ =>
    let treeItem : wxTreeListItem := ⟨item⟩
    ⟨[.UpdateItemParentStateRecursively treeItem], ()⟩
  | none => ⟨[], ()⟩

/-- Source: `wxd_TreeListCtrl_DeleteColumn`. -/
def wxd_TreeListCtrl_DeleteColumn (self : Option wxTreeListCtrl) (col : Nat) : Outcome Bool :=
  match self with
  | none => ⟨[], false⟩
  | some ctrl => ⟨[.DeleteColumn col], ctrl.DeleteColumn col⟩

/-- Source: `wxd_TreeListCtrl_ClearColumns`. -/
def wxd_TreeListCtrl_ClearColumns (self : Option wxTreeListCtrl) : Outcome Unit :=
  match self with
  | some _ => ⟨[.ClearColumns], ()⟩
  | none => ⟨[], ()⟩

/-- Source: `wxd_TreeListCtrl_WidthFor`. -/
def wxd_TreeListCtrl_WidthFor (self : Option wxTreeListCtrl) (text : Option String) :
    Outcome Int :=
  match self, text with
  | some ctrl, some text => ⟨[.WidthFor text], ctrl.WidthFor text⟩
  | _, _ => ⟨[], -1⟩

/-- Source: `wxd_TreeListCtrl_InsertItem`. -/
def wxd_TreeListCtrl_InsertItem (self : Option wxTreeListCtrl) (parent : Int) (previous : Int)
    (text : Option String) : Outcome Int :=
  match self, text with
  | some ctrl, some text =>
    let parentItem : wxTreeListItem := ⟨parent⟩
    let previousItem : wxTreeListItem := ⟨previous⟩
    let newItem := ctrl.InsertItem parentItem previousItem text
    ⟨[.InsertItem parentItem previousItem text], newItem.GetID⟩
  | _, _ => ⟨[], 0⟩

/-- Source: `wxd_TreeListCtrl_PrependItem`. -/
def wxd_TreeListCtrl_PrependItem (self : Option wxTreeListCtrl) (parent : Int)
    (text : Option String) : Outcome Int :=
  match self, text with
  | some ctrl, some text =>
    let parentItem : wxTreeListItem := ⟨parent⟩
    let newItem := ctrl.PrependItem parentItem text
    ⟨[.PrependItem parentItem text], newItem.GetID⟩
  | _, _ => ⟨[], 0⟩

/-- Source: `wxd_TreeListCtrl_GetItemParent`. -/
def wxd_TreeListCtrl_GetItemParent (self : Option wxTreeListCtrl) (item : Int) : Outcome Int :=
  match self with
  | none => ⟨[], 0⟩
  | some ctrl =>
    let treeItem : wxTreeListItem := ⟨item⟩
    let parent := ctrl.GetItemParent treeItem
    ⟨[.GetItemParent treeItem], parent.GetID⟩

/-- Source: `wxd_TreeListCtrl_GetFirstChild`. -/
def wxd_TreeListCtrl_GetFirstChild (self : Option wxTreeListCtrl) (item : Int) : Outcome Int :=
  match self with
  | none => ⟨[], 0⟩
  | some ctrl =>
    let treeItem : wxTreeListItem := ⟨item⟩
    let child := ctrl.GetFirstChild treeItem
    ⟨[.GetFirstChild treeItem], child.GetID⟩

/-- Source: `wxd_TreeListCtrl_GetNextSibling`. -/
def wxd_TreeListCtrl_GetNextSibling (self : Option wxTreeListCtrl) (item : Int) : Outcome Int :=
  match self with
  | none => ⟨[], 0⟩
  | some ctrl =>
    let treeItem : wxTreeListItem := ⟨item⟩
    let sibling := ctrl.GetNextSibling treeItem
    ⟨[.GetNextSibling treeItem], sibling.GetID⟩

/-- Source: `wxd_TreeListCtrl_GetNextItem`. -/
def wxd_TreeListCtrl_GetNextItem (self : Option wxTreeListCtrl) (item : Int) : Outcome Int :=
  match self with
  | none => ⟨[], 0⟩
  | some ctrl =>
    let treeItem : wxTreeListItem := ⟨item⟩
    let nextItem := ctrl.GetNextItem treeItem
    ⟨[.GetNextItem treeItem], nextItem.GetID⟩

/-- Source: `wxd_TreeListCtrl_GetFirstItem`. -/
def wxd_TreeListCtrl_GetFirstItem (self : Option wxTreeListCtrl) : Outcome Int :=
  match self with
  | none => ⟨[], 0⟩
  | some ctrl =>
    let firstItem := ctrl.GetFirstItem
    ⟨[.GetFirstItem], firstItem.GetID⟩

/-- Source: `wxd_TreeListCtrl_SetItemImage`. -/
def wxd_TreeListCtrl_SetItemImage (self : Option wxTreeListCtrl) (item : Int) (closed : Int)
    (opened : Int) : Outcome Unit :=
  match self with
  | some _ =>
    let treeItem : wxTreeListItem := ⟨item⟩
    ⟨[.SetItemImage treeItem closed opened], ()⟩
  | none => ⟨[], ()⟩

/-- The loop `for (unsigned i = 0; i < result_count; i++) selections[i] = (wxd_Long_t)items[i].GetID();`
of `wxd_TreeListCtrl_GetSelections`, over the caller's buffer taken as a map from slot index to
the handle stored there. -/
def GetSelections_loop (items : wxTreeListItems) (result_count : Nat) (selections : Nat → Int) :
    Nat → Int :=
  (List.range result_count).foldl
    (fun buf i => Function.update buf i ((items.getD i ⟨0⟩).GetID)) selections

/-- Source: `wxd_TreeListCtrl_GetSelections`. The returned pair is the function's return value
and the caller's buffer after the call. -/
def wxd_TreeListCtrl_GetSelections (self : Option wxTreeListCtrl)
    (selections : Option (Nat → Int)) (max_count : Nat) :
    Outcome (Nat × Option (Nat → Int)) :=
  match self, selections with
  | some ctrl, some buf =>
    let items := ctrl.GetSelections
    let count := items.length
    let result_count := min count max_count
    ⟨[.GetSelections], (count, some (GetSelections_loop items result_count buf))⟩
  | _, _ => ⟨[], (0, selections)⟩

/-- Source: `wxd_TreeListCtrl_Select`. -/
def wxd_TreeListCtrl_Select (self : Option wxTreeListCtrl) (item : Int) : Outcome Unit :=
  match self with
  | some _ =>
    let treeItem : wxTreeListItem := ⟨item⟩
    ⟨[.Select treeItem], ()⟩
  | none => ⟨[], ()⟩

/-- Source: `wxd_TreeListCtrl_Unselect`. -/
def wxd_TreeListCtrl_Unselect (self : Option wxTreeListCtrl) (item : Int) : Outcome Unit :=
  match self with
  | some _ =>
    let treeItem : wxTreeListItem := ⟨item⟩
    ⟨[.Unselect treeItem], ()⟩
  | none => ⟨[], ()⟩

/-- Source: `wxd_TreeListCtrl_IsSelected`. -/
def wxd_TreeListCtrl_IsSelected (self : Option wxTreeListCtrl) (item : Int) : Outcome Bool :=
  match self with
  | none => ⟨[], false⟩
  | some ctrl =>
    let treeItem : wxTreeListItem := ⟨item⟩
    ⟨[.IsSelected treeItem], ctrl.IsSelected treeItem⟩

/-- Source: `wxd_TreeListCtrl_SelectAll`. -/
def wxd_TreeListCtrl_SelectAll (self : Option wxTreeListCtrl) : Outcome Unit :=
  match self with
  | some _ => ⟨[.SelectAll], ()⟩
  | none => ⟨[], ()⟩

/-- Source: `wxd_TreeListCtrl_EnsureVisible`. -/
def wxd_TreeListCtrl_EnsureVisible (self : Option wxTreeListCtrl) (item : Int) : Outcome Unit :=
  match self with
  | some _ =>
    let treeItem : wxTreeListItem := ⟨item⟩
    ⟨[.EnsureVisible treeItem], ()⟩
  | none => ⟨[], ()⟩

/-- Source: `wxd_TreeListCtrl_UncheckItem`. -/
def wxd_TreeListCtrl_UncheckItem (self : Option wxTreeListCtrl) (item : Int) : Outcome Unit :=
  match self with
  | some _ =>
    let treeItem : wxTreeListItem := ⟨item⟩
    ⟨[.UncheckItem treeItem], ()⟩
  | none => ⟨[], ()⟩

/-- Source: `wxd_TreeListCtrl_AreAllChildrenInState`. The integer is cast to the enumeration
with `static_cast`, without the `switch` of `wxd_TreeListCtrl_CheckItem`. -/
def wxd_TreeListCtrl_AreAllChildrenInState (self : Option wxTreeListCtrl) (item : Int)
    (state : Int) : Outcome Bool :=
  match self with
  | none => ⟨[], false⟩
  | some ctrl =>
    let treeItem : wxTreeListItem := ⟨item⟩
    let checkState : wxCheckBoxState := ⟨state⟩
    ⟨[.AreAllChildrenInState treeItem checkState], ctrl.AreAllChildrenInState treeItem checkState⟩

/-- Source: `wxd_TreeListCtrl_SetSortColumn`. -/
def wxd_TreeListCtrl_SetSortColumn (self : Option wxTreeListCtrl) (col : Nat)
    (ascending : Bool) : Outcome Unit :=
  match self with
  | some _ => ⟨[.SetSortColumn col ascending], ()⟩
  | none => ⟨[], ()⟩

/-- Source: `wxd_TreeListCtrl_GetSortColumn`. The two out-pointers are handed to the toolkit
unchanged. -/
def wxd_TreeListCtrl_GetSortColumn (self : Option wxTreeListCtrl) (col : Option Nat)
    (ascending : Option Nat) : Outcome Bool :=
  match self with
  | none => ⟨[], false⟩
  | some ctrl => ⟨[.GetSortColumn col ascending], ctrl.GetSortColumn⟩

/-! ## `wxd_sysopt.cpp` -/

/-- The expression `name ? name : ""` used on every string argument of `wxd_sysopt.cpp`. -/
def orEmpty (name : Option String) : String :=
  match name with
  | some n => n
  | none => ""

/-- Source: `wxd_SystemOptions_SetOption_String`. -/
def wxd_SystemOptions_SetOption_String (name : Option String) (value : Option String) :
    Outcome Unit :=
  ⟨[.SystemOptions_SetOption_String (orEmpty name) (orEmpty value)], ()⟩

/-- Source: `wxd_SystemOptions_SetOption_Int`. -/
def wxd_SystemOptions_SetOption_Int (name : Option String) (value : Int) : Outcome Unit :=
  ⟨[.SystemOptions_SetOption_Int (orEmpty name) value], ()⟩

/-- Source: `wxd_SystemOptions_GetOption_String`. -/
def wxd_SystemOptions_GetOption_String (T : Toolkit) (opts : wxSystemOptions)
    (name : Option String) (buffer : CharBuffer) (buffer_len : Int) : Outcome Int :=
  let text := opts.GetOption (orEmpty name)
  ⟨[.SystemOptions_GetOption (orEmpty name),
    .copy_wxstring_to_buffer text buffer (to_size_t buffer_len)],
   T.copy_wxstring_to_buffer text buffer (to_size_t buffer_len)⟩

/-- Source: `wxd_SystemOptions_GetOption_Int`. -/
def wxd_SystemOptions_GetOption_Int (opts : wxSystemOptions) (name : Option String) :
    Outcome Int :=
  ⟨[.SystemOptions_GetOptionInt (orEmpty name)], opts.GetOptionInt (orEmpty name)⟩

/-- Source: `wxd_SystemOptions_HasOption`. -/
def wxd_SystemOptions_HasOption (opts : wxSystemOptions) (name : Option String) :
    Outcome Bool :=
  ⟨[.SystemOptions_HasOption (orEmpty name)], opts.HasOption (orEmpty name)⟩

/-- Source: `wxd_SystemOptions_IsFalse`. -/
def wxd_SystemOptions_IsFalse (opts : wxSystemOptions) (name : Option String) : Outcome Bool :=
  ⟨[.SystemOptions_IsFalse (orEmpty name)], opts.IsFalse (orEmpty name)⟩

/-! ## Sample toolkit and controls

Concrete values at which the theorems below are evaluated. -/

/-- A control with the given selection and, under every item, children in the given checkbox
states. `AreAllChildrenInState` is the toolkit's loop over the direct children: it answers
`false` at the first child whose state differs from the one asked about, `true` otherwise. -/
def sampleCtrl (selected : wxTreeListItems) (children : List wxCheckBoxState) : wxTreeListCtrl where
  AppendColumn := fun _ _ _ => 0
  GetColumnCount := 1
  GetColumnWidth := fun _ => 80
  GetRootItem := ⟨1000⟩
  AppendItem := fun _ _ => ⟨1001⟩
  GetItemText := fun _ _ => "item"
  IsExpanded := fun _ => true
  GetSelection := selected.headD ⟨0⟩
  GetCheckedState := fun _ => children.headD ⟨0⟩
  DeleteColumn := fun _ => true
  WidthFor := fun text => 8 * text.length
  InsertItem := fun _ _ _ => ⟨1001⟩
  PrependItem := fun _ _ => ⟨1001⟩
  GetItemParent := fun _ => ⟨1000⟩
  GetFirstChild := fun _ => ⟨1001⟩
  GetNextSibling := fun _ => ⟨0⟩
  GetNextItem := fun _ => ⟨0⟩
  GetFirstItem := ⟨1001⟩
  GetSelections := selected
  IsSelected := fun item => decide (item ∈ selected)
  AreAllChildrenInState := fun _ state => children.all (fun c => decide (c = state))
  GetSortColumn := false

/-- A toolkit whose flags and enumerators have the values of the wxWidgets headers
(`wxTL_CHECKBOX = 0x0002`, `wxTL_3STATE = 0x0004`, the three `wxCHK_` enumerators `0, 1, 2`,
`wxALIGN_LEFT = 0`, `wxALIGN_RIGHT = 0x0200`, `wxALIGN_CENTER = 0x0900`) and whose copy helper
reports the UTF-8 length of the text. -/
def sampleToolkit : Toolkit where
  wxTL_CHECKBOX := 2
  wxTL_3STATE := 4
  wxCHK_UNCHECKED := ⟨0⟩
  wxCHK_CHECKED := ⟨1⟩
  wxCHK_UNDETERMINED := ⟨2⟩
  wxALIGN_LEFT := ⟨0⟩
  wxALIGN_RIGHT := ⟨0x200⟩
  wxALIGN_CENTER := ⟨0x900⟩
  new_wxTreeListCtrl := fun _ _ _ _ _ => sampleCtrl [] []
  copy_wxstring_to_buffer := fun text _ _ => text.utf8ByteSize

/-- An options store in which the option `theme` has the value `dark`. -/
def sampleOptions : wxSystemOptions where
  GetOption := fun name => if name = "theme" then "dark" else ""
  GetOptionInt := fun _ => 0
  HasOption := fun name => decide (name = "theme")
  IsFalse := fun name => decide (name ≠ "theme")

/-- The options store after a wrapper has run: the effect of each of its toolkit calls, in
order, on the store it started from. What a toolkit call does to the store is the toolkit's
business and is the parameter `effect`. -/
def storeAfter {α : Type} (effect : wxSystemOptions → ToolkitCall → wxSystemOptions)
    (opts : wxSystemOptions) (o : Outcome α) : wxSystemOptions :=
  o.calls.foldl effect opts

/-- A toolkit effect for the sample store: `SetOption` with a string makes the option present
with that value, `SetOption` with an integer makes it present with that integer value, every
other call leaves the store as it is. -/
def sampleEffect (opts : wxSystemOptions) (call : ToolkitCall) : wxSystemOptions :=
  match call with
  | .SystemOptions_SetOption_String name value =>
    { opts with
      GetOption := fun n => if n = name then value else opts.GetOption n
      HasOption := fun n => if n = name then true else opts.HasOption n }
  | .SystemOptions_SetOption_Int name value =>
    { opts with
      GetOptionInt := fun n => if n = name then value else opts.GetOptionInt n
      HasOption := fun n => if n = name then true else opts.HasOption n }
  | _ => opts

/-- A caller's selection buffer holding `-1` in every slot. -/
def sampleBuffer : Nat → Int := fun _ => -1

/-! ## Theorems -/

/-- C1: for every integer `state`, `wxd_TreeListCtrl_CheckItem` and
`wxd_TreeListCtrl_CheckItemRecursively` on a non-null control each make exactly one toolkit
call, and both hand over the same checkbox state `s`: `wxCHK_CHECKED` when `state = 1`,
`wxCHK_UNDETERMINED` when `state = 2`, `wxCHK_UNCHECKED` for every other integer. -/
theorem C1_check_state_mapping (T : Toolkit) (ctrl : wxTreeListCtrl) (item state : Int) :
    ∃ s : wxCheckBoxState,
      (wxd_TreeListCtrl_CheckItem T (some ctrl) item state).calls
        = [ToolkitCall.CheckItem ⟨item⟩ s] ∧
      (wxd_TreeListCtrl_CheckItemRecursively T (some ctrl) item state).calls
        = [ToolkitCall.CheckItemRecursively ⟨item⟩ s] ∧
      (state = 1 → s = T.wxCHK_CHECKED) ∧
      (state = 2 → s = T.wxCHK_UNDETERMINED) ∧
      (state ≠ 1 → state ≠ 2 → s = T.wxCHK_UNCHECKED) := by
  by_cases h1 : state = 1
  · refine ⟨T.wxCHK_CHECKED, ?_, ?_, ?_, ?_, ?_⟩
    · simp [wxd_TreeListCtrl_CheckItem, h1]
    · simp [wxd_TreeListCtrl_CheckItemRecursively, h1]
    · intro _; rfl
    · intro h2; omega
    · intro h; exact absurd h1 h
  · by_cases h2 : state = 2
    · refine ⟨T.wxCHK_UNDETERMINED, ?_, ?_, ?_, ?_, ?_⟩
      · simp [wxd_TreeListCtrl_CheckItem, h2]
      · simp [wxd_TreeListCtrl_CheckItemRecursively, h2]
      · intro h; exact absurd h h1
      · intro _; rfl
      · intro _ h; exact absurd h2 h
    · refine ⟨T.wxCHK_UNCHECKED, ?_, ?_, ?_, ?_, ?_⟩
      · simp [wxd_TreeListCtrl_CheckItem, h1, h2]
      · simp [wxd_TreeListCtrl_CheckItemRecursively, h1, h2]
      · intro h; exact absurd h h1
      · intro h; exact absurd h h2
      · intro _ _; rfl

/-- C1 at concrete inputs: with the header values of the enumerators, the states `1`, `2`,
`0`, `-4` and `7` are handed over as checked, undetermined, unchecked, unchecked, unchecked. -/
theorem C1_check_state_mapping_sample :
    (wxd_TreeListCtrl_CheckItem sampleToolkit (some (sampleCtrl [] [])) 5 1).calls
      = [ToolkitCall.CheckItem ⟨5⟩ ⟨1⟩] ∧
    (wxd_TreeListCtrl_CheckItemRecursively sampleToolkit (some (sampleCtrl [] [])) 5 2).calls
      = [ToolkitCall.CheckItemRecursively ⟨5⟩ ⟨2⟩] ∧
    (wxd_TreeListCtrl_CheckItem sampleToolkit (some (sampleCtrl [] [])) 5 0).calls
      = [ToolkitCall.CheckItem ⟨5⟩ ⟨0⟩] ∧
    (wxd_TreeListCtrl_CheckItem sampleToolkit (some (sampleCtrl [] [])) 5 (-4)).calls
      = [ToolkitCall.CheckItem ⟨5⟩ ⟨0⟩] ∧
    (wxd_TreeListCtrl_CheckItemRecursively sampleToolkit (some (sampleCtrl [] [])) 5 7).calls
      = [ToolkitCall.CheckItemRecursively ⟨5⟩ ⟨0⟩] ∧
    (∃ s : wxCheckBoxState,
      (wxd_TreeListCtrl_CheckItem sampleToolkit (some (sampleCtrl [] [])) 5 7).calls
        = [ToolkitCall.CheckItem ⟨5⟩ s]) := by
  refine ⟨by decide, by decide, by decide, by decide, by decide, ?_⟩
  obtain ⟨s, h, _⟩ := C1_check_state_mapping sampleToolkit (sampleCtrl [] []) 5 7
  exact ⟨s, h⟩

/-- C2 (the code at the failing input): on a control whose item `10` has one unchecked child,
`wxd_TreeListCtrl_AreAllChildrenInState` with `state = 3` asks the toolkit about the state
with integer value `3`, not about `wxCHK_UNCHECKED`, and answers `false`, whereas with
`state = 0` it answers `true`. -/
theorem C2_state_passed_unmapped :
    (wxd_TreeListCtrl_AreAllChildrenInState (some (sampleCtrl [] [⟨0⟩])) 10 3).calls
      = [ToolkitCall.AreAllChildrenInState ⟨10⟩ ⟨3⟩] ∧
    (⟨3⟩ : wxCheckBoxState) ≠ sampleToolkit.wxCHK_UNCHECKED ∧
    (wxd_TreeListCtrl_AreAllChildrenInState (some (sampleCtrl [] [⟨0⟩])) 10 3).ret = false ∧
    (wxd_TreeListCtrl_AreAllChildrenInState (some (sampleCtrl [] [⟨0⟩])) 10 0).ret = true := by
  refine ⟨by decide, by decide, by decide, by decide⟩

/-- After the copy loop, slot `i` holds the handle of `items[i]` when `i < result_count` and
its previous content otherwise. -/
theorem GetSelections_loop_apply (items : wxTreeListItems) (buf : Nat → Int) (n i : Nat) :
    GetSelections_loop items n buf i
      = if i < n then (items.getD i ⟨0⟩).GetID else buf i := by
  unfold GetSelections_loop
  induction n with
  | zero => simp
  | succ k ih =>
    rw [List.range_succ, List.foldl_append, List.foldl_cons, List.foldl_nil]
    by_cases hik : i = k
    · subst hik
      simp
    · rw [Function.update_noteq hik, ih]
      by_cases hlt : i < k
      · have : i < k + 1 := by omega
        simp [hlt, this]
      · have : ¬ i < k + 1 := by omega
        simp [hlt, this]

/-- C3: with a non-null control and a non-null buffer, `wxd_TreeListCtrl_GetSelections` makes
the one toolkit call `GetSelections` and returns the number of selected items the toolkit
reports, for every `max_count`; the return value is not reduced to `max_count`. -/
theorem C3_GetSelections_returns_total (ctrl : wxTreeListCtrl) (buf : Nat → Int)
    (max_count : Nat) :
    (wxd_TreeListCtrl_GetSelections (some ctrl) (some buf) max_count).calls
      = [ToolkitCall.GetSelections] ∧
    (wxd_TreeListCtrl_GetSelections (some ctrl) (some buf) max_count).ret.1
      = ctrl.GetSelections.length := by
  exact ⟨rfl, rfl⟩

/-- C3 at a concrete input: three selected items and a capacity of two give the return
value three. -/
theorem C3_GetSelections_returns_total_sample :
    (wxd_TreeListCtrl_GetSelections (some (sampleCtrl [⟨11⟩, ⟨12⟩, ⟨13⟩] [])) (some sampleBuffer)
      2).ret.1 = 3 ∧ 2 < 3 :=
  ⟨(C3_GetSelections_returns_total (sampleCtrl [⟨11⟩, ⟨12⟩, ⟨13⟩] []) sampleBuffer 2).2,
    by decide⟩

/-- C4: with a non-null control and buffer, `wxd_TreeListCtrl_GetSelections` leaves a buffer
`out` in which every slot `i < min count max_count` holds the handle of the `i`-th selected
item, in the toolkit's order, and every slot `i ≥ min count max_count` holds what it held
before the call. -/
theorem C4_GetSelections_buffer (ctrl : wxTreeListCtrl) (buf : Nat → Int) (max_count : Nat) :
    ∃ out : Nat → Int,
      (wxd_TreeListCtrl_GetSelections (some ctrl) (some buf) max_count).ret.2 = some out ∧
      (∀ (i : Nat) (h : i < min ctrl.GetSelections.length max_count),
        out i = (ctrl.GetSelections.get ⟨i, lt_of_lt_of_le h (Nat.min_le_left _ _)⟩).GetID) ∧
      (∀ i : Nat, min ctrl.GetSelections.length max_count ≤ i → out i = buf i) := by
  refine ⟨GetSelections_loop ctrl.GetSelections (min ctrl.GetSelections.length max_count) buf,
    rfl, ?_, ?_⟩
  · intro i h
    have hlen : i < ctrl.GetSelections.length := lt_of_lt_of_le h (Nat.min_le_left _ _)
    rw [GetSelections_loop_apply, if_pos h, List.getD_eq_getElem _ _ hlen]
    rfl
  · intro i h
    rw [GetSelections_loop_apply, if_neg (by omega)]

/-- C4 at a concrete input: three selected items `11, 12, 13`, capacity two, buffer holding
`-1` everywhere: slots `0` and `1` receive `11` and `12`, slots `2` and `3` keep `-1`. -/
theorem C4_GetSelections_buffer_sample :
    ∃ out : Nat → Int,
      (wxd_TreeListCtrl_GetSelections (some (sampleCtrl [⟨11⟩, ⟨12⟩, ⟨13⟩] []))
        (some sampleBuffer) 2).ret.2 = some out ∧
      out 0 = 11 ∧ out 1 = 12 ∧ out 2 = -1 ∧ out 3 = -1 := by
  obtain ⟨out, hout, hlo, hhi⟩ :=
    C4_GetSelections_buffer (sampleCtrl [⟨11⟩, ⟨12⟩, ⟨13⟩] []) sampleBuffer 2
  refine ⟨out, hout, ?_, ?_, ?_, ?_⟩
  · exact hlo 0 (by decide)
  · exact hlo 1 (by decide)
  · exact hhi 2 (by decide)
  · exact hhi 3 (by decide)

/-- C5: for every integer `align`, `wxd_TreeListCtrl_AppendColumn` with a non-null control and
a non-null text makes the one toolkit call `AppendColumn text width alignment` and returns its
answer, where `alignment` is `wxALIGN_RIGHT` when `align = 1`, `wxALIGN_CENTER` when
`align = 2`, and `wxALIGN_LEFT` for every other integer. -/
theorem C5_AppendColumn_alignment (T : Toolkit) (ctrl : wxTreeListCtrl) (text : String)
    (width align : Int) :
    ∃ alignment : wxAlignment,
      (wxd_TreeListCtrl_AppendColumn T (some ctrl) (some text) width align).calls
        = [ToolkitCall.AppendColumn text width alignment] ∧
      (wxd_TreeListCtrl_AppendColumn T (some ctrl) (some text) width align).ret
        = ctrl.AppendColumn text width alignment ∧
      (align = 1 → alignment = T.wxALIGN_RIGHT) ∧
      (align = 2 → alignment = T.wxALIGN_CENTER) ∧
      (align ≠ 1 → align ≠ 2 → alignment = T.wxALIGN_LEFT) := by
  by_cases h1 : align = 1
  · refine ⟨T.wxALIGN_RIGHT, ?_, ?_, ?_, ?_, ?_⟩
    · simp [wxd_TreeListCtrl_AppendColumn, h1]
    · simp [wxd_TreeListCtrl_AppendColumn, h1]
    · intro _; rfl
    · intro h2; omega
    · intro h; exact absurd h1 h
  · by_cases h2 : align = 2
    · refine ⟨T.wxALIGN_CENTER, ?_, ?_, ?_, ?_, ?_⟩
      · simp [wxd_TreeListCtrl_AppendColumn, h2]
      · simp [wxd_TreeListCtrl_AppendColumn, h2]
      · intro h; exact absurd h h1
      · intro _; rfl
      · intro _ h; exact absurd h2 h
    · refine ⟨T.wxALIGN_LEFT, ?_, ?_, ?_, ?_, ?_⟩
      · simp [wxd_TreeListCtrl_AppendColumn, h1, h2]
      · simp [wxd_TreeListCtrl_AppendColumn, h1, h2]
      · intro h; exact absurd h h1
      · intro h; exact absurd h h2
      · intro _ _; rfl

/-- C5 at concrete inputs: with the header values of the alignments, `align` of `1`, `2`, `0`,
`-1` and `3` create the column right, centre, left, left and left aligned. -/
theorem C5_AppendColumn_alignment_sample :
    (wxd_TreeListCtrl_AppendColumn sampleToolkit (some (sampleCtrl [] [])) (some "Name") 120
      1).calls = [ToolkitCall.AppendColumn "Name" 120 ⟨0x200⟩] ∧
    (wxd_TreeListCtrl_AppendColumn sampleToolkit (some (sampleCtrl [] [])) (some "Name") 120
      2).calls = [ToolkitCall.AppendColumn "Name" 120 ⟨0x900⟩] ∧
    (wxd_TreeListCtrl_AppendColumn sampleToolkit (some (sampleCtrl [] [])) (some "Name") 120
      0).calls = [ToolkitCall.AppendColumn "Name" 120 ⟨0⟩] ∧
    (wxd_TreeListCtrl_AppendColumn sampleToolkit (some (sampleCtrl [] [])) (some "Name") 120
      (-1)).calls = [ToolkitCall.AppendColumn "Name" 120 ⟨0⟩] ∧
    (∃ alignment : wxAlignment,
      (wxd_TreeListCtrl_AppendColumn sampleToolkit (some (sampleCtrl [] [])) (some "Name") 120
        3).calls = [ToolkitCall.AppendColumn "Name" 120 alignment] ∧
      alignment = sampleToolkit.wxALIGN_LEFT) := by
  refine ⟨by decide, by decide, by decide, by decide, ?_⟩
  obtain ⟨a, h, _, _, _, h3⟩ :=
    C5_AppendColumn_alignment sampleToolkit (sampleCtrl [] []) "Name" 120 3
  exact ⟨a, h, h3 (by decide) (by decide)⟩

/-! ### Bit tests

`style & 1` and `style & 2` on two's complement integers, in terms of the bits of `style`. -/

theorem nat_land_two_pow_ne_zero (m k : Nat) : m &&& 2 ^ k ≠ 0 ↔ m.testBit k = true := by
  rw [Nat.and_two_pow]
  cases h : m.testBit k
  · simp
  · simp

theorem nat_ldiff_two_pow_ne_zero (m k : Nat) :
    Nat.ldiff (2 ^ k) m ≠ 0 ↔ m.testBit k = false := by
  constructor
  · intro h
    obtain ⟨i, hi⟩ := Nat.ne_zero_implies_bit_true h
    rw [Nat.testBit_ldiff, Nat.testBit_two_pow] at hi
    simp only [Bool.and_eq_true, decide_eq_true_eq, Bool.not_eq_true'] at hi
    obtain ⟨hki, h2⟩ := hi
    rw [hki]; exact h2
  · intro h hz
    have h3 := Nat.testBit_ldiff (2 ^ k) m k
    rw [hz, h, Nat.testBit_two_pow_self] at h3
    simp at h3

theorem int_land_two_pow_ne_zero (x : Int) (k : Nat) :
    Int.land x (((2 ^ k : Nat) : Int)) ≠ 0 ↔ x.testBit k = true := by
  cases x with
  | ofNat m =>
    show (((m &&& 2 ^ k : Nat)) : Int) ≠ 0 ↔ m.testBit k = true
    rw [← nat_land_two_pow_ne_zero]
    exact Int.natCast_ne_zero
  | negSucc m =>
    show (((Nat.ldiff (2 ^ k) m : Nat)) : Int) ≠ 0 ↔ (!(m.testBit k)) = true
    rw [Bool.not_eq_true', ← nat_ldiff_two_pow_ne_zero]
    exact Int.natCast_ne_zero

theorem int_land_one_ne_zero (x : Int) : Int.land x 1 ≠ 0 ↔ x.testBit 0 = true :=
  int_land_two_pow_ne_zero x 0

theorem int_land_two_ne_zero (x : Int) : Int.land x 2 ≠ 0 ↔ x.testBit 1 = true :=
  int_land_two_pow_ne_zero x 1

theorem int_testBit_two_pow (a i : Nat) : Int.testBit ((2 : Int) ^ a) i = decide (a = i) := by
  have h : ((2 : Int) ^ a) = (((2 ^ a : Nat)) : Int) := by push_cast; rfl
  rw [h]
  show Nat.testBit (2 ^ a) i = decide (a = i)
  exact Nat.testBit_two_pow

theorem int_testBit_zero (i : Nat) : Int.testBit 0 i = false := by
  show Nat.testBit 0 i = false
  exact Nat.zero_testBit i

/-- The toolkit style `wxd_TreeListCtrl_Create` hands to the constructor, read off its one
toolkit call. -/
theorem Create_calls (T : Toolkit) (parent : Option Nat) (id : Int) (pos : wxd_Point)
    (size : wxd_Size) (style : Int) :
    (wxd_TreeListCtrl_Create T parent id pos size style).calls
      = [ToolkitCall.new_wxTreeListCtrl parent id pos size
          (Int.lor (if style.testBit 0 = true then T.wxTL_CHECKBOX else 0)
            (if style.testBit 1 = true then T.wxTL_3STATE else 0))] := by
  have hl : ∀ n : Nat, Nat.ldiff n 0 = n := by
    intro n
    apply Nat.eq_of_testBit_eq
    intro i
    rw [Nat.testBit_ldiff]
    simp
  have hz : ∀ x : Int, Int.lor 0 x = x := by
    intro x
    cases x with
    | ofNat n =>
      show (((0 ||| n : Nat)) : Int) = (n : Int)
      rw [Nat.zero_or]
    | negSucc n =>
      show Int.negSucc (Nat.ldiff n 0) = Int.negSucc n
      rw [hl]
  have hz2 : ∀ x : Int, Int.lor x 0 = x := by
    intro x
    cases x with
    | ofNat n =>
      show (((n ||| 0 : Nat)) : Int) = (n : Int)
      rw [Nat.or_zero]
    | negSucc n =>
      show Int.negSucc (Nat.ldiff n 0) = Int.negSucc n
      rw [hl]
  unfold wxd_TreeListCtrl_Create
  by_cases h0 : style.testBit 0 = true <;> by_cases h1 : style.testBit 1 = true <;>
    simp [int_land_one_ne_zero, int_land_two_ne_zero, h0, h1, hz, hz2]

/-- C6: when the toolkit flags `wxTL_CHECKBOX` and `wxTL_3STATE` are two different single
bits (`2 ^ a` and `2 ^ b`), `wxd_TreeListCtrl_Create` makes the one constructor call, with a
toolkit style `wxStyle` in which the checkbox bit is set iff bit 0 of `style` is set, the
3-state bit is set iff bit 1 of `style` is set, and no other bit is set; and two values of
`style` that agree on bits 0 and 1 give the same constructor call. -/
theorem C6_Create_style (T : Toolkit) (a b : Nat) (ha : T.wxTL_CHECKBOX = 2 ^ a)
    (hb : T.wxTL_3STATE = 2 ^ b) (hab : a ≠ b) (parent : Option Nat) (id : Int)
    (pos : wxd_Point) (size : wxd_Size) (style : Int) :
    ∃ wxStyle : Int,
      (wxd_TreeListCtrl_Create T parent id pos size style).calls
        = [ToolkitCall.new_wxTreeListCtrl parent id pos size wxStyle] ∧
      wxStyle.testBit a = style.testBit 0 ∧
      wxStyle.testBit b = style.testBit 1 ∧
      (∀ i : Nat, i ≠ a → i ≠ b → wxStyle.testBit i = false) ∧
      (∀ style2 : Int, style2.testBit 0 = style.testBit 0 →
        style2.testBit 1 = style.testBit 1 →
        (wxd_TreeListCtrl_Create T parent id pos size style2).calls
          = (wxd_TreeListCtrl_Create T parent id pos size style).calls) := by
  have hba : b ≠ a := fun h => hab h.symm
  refine ⟨_, Create_calls T parent id pos size style, ?_, ?_, ?_, ?_⟩
  · rw [Int.testBit_lor, ha, hb]
    cases h0 : style.testBit 0 <;> cases h1 : style.testBit 1 <;>
      simp [int_testBit_two_pow, int_testBit_zero, hba]
  · rw [Int.testBit_lor, ha, hb]
    cases h0 : style.testBit 0 <;> cases h1 : style.testBit 1 <;>
      simp [int_testBit_two_pow, int_testBit_zero, hab]
  · intro i hia hib
    have hai : a ≠ i := fun h => hia h.symm
    have hbi : b ≠ i := fun h => hib h.symm
    rw [Int.testBit_lor, ha, hb]
    cases h0 : style.testBit 0 <;> cases h1 : style.testBit 1 <;>
      simp [int_testBit_two_pow, int_testBit_zero, hai, hbi]
  · intro style2 h0 h1
    rw [Create_calls, Create_calls, h0, h1]

/-- C6 at a concrete input: with `wxTL_CHECKBOX = 2` and `wxTL_3STATE = 4`, the style `5`
(bits 0 and 2) is constructed with toolkit style `2`: checkbox bit set, 3-state bit clear. -/
theorem C6_Create_style_sample :
    (wxd_TreeListCtrl_Create sampleToolkit none 7 ⟨0, 0⟩ ⟨200, 100⟩ 5).calls
      = [ToolkitCall.new_wxTreeListCtrl none 7 ⟨0, 0⟩ ⟨200, 100⟩ 2] ∧
    (∃ wxStyle : Int,
      (wxd_TreeListCtrl_Create sampleToolkit none 7 ⟨0, 0⟩ ⟨200, 100⟩ 5).calls
        = [ToolkitCall.new_wxTreeListCtrl none 7 ⟨0, 0⟩ ⟨200, 100⟩ wxStyle] ∧
      wxStyle.testBit 1 = true ∧ wxStyle.testBit 2 = false) := by
  refine ⟨by decide, ?_⟩
  obtain ⟨w, hc, h0, h1, _, _⟩ :=
    C6_Create_style sampleToolkit 1 2 (by decide) (by decide) (by decide) none 7 ⟨0, 0⟩
      ⟨200, 100⟩ 5
  exact ⟨w, hc, by rw [h0]; decide, by rw [h1]; decide⟩

/-- C7 (the code at the failing input): with `buffer_len = -1`,
`wxd_SystemOptions_GetOption_String` hands the copy helper the capacity
`(size_t)(-1) = 2 ^ 64 - 1`, which is not at most `max (-1) 0 = 0`. -/
theorem C7_negative_length_capacity :
    (wxd_SystemOptions_GetOption_String sampleToolkit sampleOptions (some "theme") (some 4096)
      (-1)).calls
      = [ToolkitCall.SystemOptions_GetOption "theme",
         ToolkitCall.copy_wxstring_to_buffer "dark" (some 4096) 18446744073709551615] ∧
    ¬ ((18446744073709551615 : Int) ≤ max (-1) 0) := by
  refine ⟨by decide, by decide⟩

/-- C8: for an `int` `buffer_len`, `wxd_TreeListCtrl_GetItemText` returns `-1` and makes no
call at all (neither to the toolkit nor to the copy helper, the only writer of the buffer)
whenever the control is null, the buffer is null, or `buffer_len ≤ 0`; in every other case it
asks the toolkit for the text and hands the copy helper that text, the buffer and a capacity
equal to `buffer_len`, and returns the helper's result. -/
theorem C8_GetItemText (T : Toolkit) (self : Option wxTreeListCtrl) (item col : Int)
    (buffer : CharBuffer) (buffer_len : Int) (hint : isInt buffer_len) :
    ((self = none ∨ buffer = none ∨ buffer_len ≤ 0) →
      (wxd_TreeListCtrl_GetItemText T self item col buffer buffer_len).calls = [] ∧
      (wxd_TreeListCtrl_GetItemText T self item col buffer buffer_len).ret = -1) ∧
    (∀ (ctrl : wxTreeListCtrl) (b : Nat), self = some ctrl → buffer = some b →
      0 < buffer_len →
      ∃ capacity : Nat, (capacity : Int) = buffer_len ∧
        (wxd_TreeListCtrl_GetItemText T self item col buffer buffer_len).calls
          = [ToolkitCall.GetItemText ⟨item⟩ col,
             ToolkitCall.copy_wxstring_to_buffer (ctrl.GetItemText ⟨item⟩ col) (some b)
               capacity] ∧
        (wxd_TreeListCtrl_GetItemText T self item col buffer buffer_len).ret
          = T.copy_wxstring_to_buffer (ctrl.GetItemText ⟨item⟩ col) (some b) capacity) := by
  constructor
  · intro h
    cases self with
    | none => exact ⟨rfl, rfl⟩
    | some ctrl =>
      cases buffer with
      | none => exact ⟨rfl, rfl⟩
      | some b =>
        have hle : buffer_len ≤ 0 := by
          rcases h with h | h | h
          · cases h
          · cases h
          · exact h
        simp [wxd_TreeListCtrl_GetItemText, hle]
  · intro ctrl b hs hb hpos
    subst hs
    subst hb
    have hnot : ¬ buffer_len ≤ 0 := by omega
    refine ⟨to_size_t buffer_len, ?_, ?_, ?_⟩
    · unfold to_size_t SIZE_BITS
      unfold isInt at hint
      have hmod : buffer_len % (2 : Int) ^ 64 = buffer_len :=
        Int.emod_eq_of_lt (by omega) (by omega)
      rw [hmod]
      exact Int.toNat_of_nonneg (by omega)
    · simp [wxd_TreeListCtrl_GetItemText, hnot]
    · simp [wxd_TreeListCtrl_GetItemText, hnot]

/-- C8 at concrete inputs: a buffer length of `0` gives `-1` and no call; a buffer length of
`16` hands the copy helper the capacity `16`. -/
theorem C8_GetItemText_sample :
    ((wxd_TreeListCtrl_GetItemText sampleToolkit (some (sampleCtrl [] [])) 5 0 (some 4096)
        0).calls = [] ∧
      (wxd_TreeListCtrl_GetItemText sampleToolkit (some (sampleCtrl [] [])) 5 0 (some 4096)
        0).ret = -1) ∧
    (wxd_TreeListCtrl_GetItemText sampleToolkit (some (sampleCtrl [] [])) 5 0 (some 4096)
        16).calls
      = [ToolkitCall.GetItemText ⟨5⟩ 0,
         ToolkitCall.copy_wxstring_to_buffer "item" (some 4096) 16] := by
  refine ⟨(C8_GetItemText sampleToolkit (some (sampleCtrl [] [])) 5 0 (some 4096) 0
    (by decide)).1 (Or.inr (Or.inr (le_refl 0))), by decide⟩

/-- C9: with a null control every query makes no toolkit call and returns the neutral value,
whatever its other arguments: the ten item-handle functions return `0`; `GetColumnCount`,
`GetColumnWidth`, `GetCheckedState` and `GetSelections` return `0` (the last leaving the
caller's buffer as it was); `IsExpanded`, `IsSelected`, `DeleteColumn`,
`AreAllChildrenInState` and `GetSortColumn` return `false`. -/
theorem C9_null_control (T : Toolkit) (item parent previous col state : Int)
    (text : Option String) (ucol max_count : Nat) (selections : Option (Nat → Int))
    (pcol pasc : Option Nat) :
    ((wxd_TreeListCtrl_GetRootItem none).calls = [] ∧
      (wxd_TreeListCtrl_GetRootItem none).ret = 0) ∧
    ((wxd_TreeListCtrl_AppendItem none parent text).calls = [] ∧
      (wxd_TreeListCtrl_AppendItem none parent text).ret = 0) ∧
    ((wxd_TreeListCtrl_InsertItem none parent previous text).calls = [] ∧
      (wxd_TreeListCtrl_InsertItem none parent previous text).ret = 0) ∧
    ((wxd_TreeListCtrl_PrependItem none parent text).calls = [] ∧
      (wxd_TreeListCtrl_PrependItem none parent text).ret = 0) ∧
    ((wxd_TreeListCtrl_GetItemParent none item).calls = [] ∧
      (wxd_TreeListCtrl_GetItemParent none item).ret = 0) ∧
    ((wxd_TreeListCtrl_GetFirstChild none item).calls = [] ∧
      (wxd_TreeListCtrl_GetFirstChild none item).ret = 0) ∧
    ((wxd_TreeListCtrl_GetNextSibling none item).calls = [] ∧
      (wxd_TreeListCtrl_GetNextSibling none item).ret = 0) ∧
    ((wxd_TreeListCtrl_GetNextItem none item).calls = [] ∧
      (wxd_TreeListCtrl_GetNextItem none item).ret = 0) ∧
    ((wxd_TreeListCtrl_GetFirstItem none).calls = [] ∧
      (wxd_TreeListCtrl_GetFirstItem none).ret = 0) ∧
    ((wxd_TreeListCtrl_GetSelection none).calls = [] ∧
      (wxd_TreeListCtrl_GetSelection none).ret = 0) ∧
    ((wxd_TreeListCtrl_GetColumnCount none).calls = [] ∧
      (wxd_TreeListCtrl_GetColumnCount none).ret = 0) ∧
    ((wxd_TreeListCtrl_GetColumnWidth none col).calls = [] ∧
      (wxd_TreeListCtrl_GetColumnWidth none col).ret = 0) ∧
    ((wxd_TreeListCtrl_GetCheckedState T none item).calls = [] ∧
      (wxd_TreeListCtrl_GetCheckedState T none item).ret = 0) ∧
    ((wxd_TreeListCtrl_GetSelections none selections max_count).calls = [] ∧
      (wxd_TreeListCtrl_GetSelections none selections max_count).ret = (0, selections)) ∧
    ((wxd_TreeListCtrl_IsExpanded none item).calls = [] ∧
      (wxd_TreeListCtrl_IsExpanded none item).ret = false) ∧
    ((wxd_TreeListCtrl_IsSelected none item).calls = [] ∧
      (wxd_TreeListCtrl_IsSelected none item).ret = false) ∧
    ((wxd_TreeListCtrl_DeleteColumn none ucol).calls = [] ∧
      (wxd_TreeListCtrl_DeleteColumn none ucol).ret = false) ∧
    ((wxd_TreeListCtrl_AreAllChildrenInState none item state).calls = [] ∧
      (wxd_TreeListCtrl_AreAllChildrenInState none item state).ret = false) ∧
    ((wxd_TreeListCtrl_GetSortColumn none pcol pasc).calls = [] ∧
      (wxd_TreeListCtrl_GetSortColumn none pcol pasc).ret = false) := by
  refine ⟨⟨rfl, rfl⟩, ⟨rfl, rfl⟩, ⟨rfl, rfl⟩, ⟨rfl, rfl⟩, ⟨rfl, rfl⟩, ⟨rfl, rfl⟩, ⟨rfl, rfl⟩,
    ⟨rfl, rfl⟩, ⟨rfl, rfl⟩, ⟨rfl, rfl⟩, ⟨rfl, rfl⟩, ⟨rfl, rfl⟩, ⟨rfl, rfl⟩, ⟨rfl, rfl⟩,
    ⟨rfl, rfl⟩, ⟨rfl, rfl⟩, ⟨rfl, rfl⟩, ⟨rfl, rfl⟩, ⟨rfl, rfl⟩⟩

/-- C10: when the three enumerators `wxCHK_UNCHECKED`, `wxCHK_CHECKED`, `wxCHK_UNDETERMINED`
are pairwise different, the state `wxd_TreeListCtrl_CheckItem` hands over for the integer `n`,
reported back by a control, makes `wxd_TreeListCtrl_GetCheckedState` return `n` if `n` is `0`,
`1` or `2` and `0` otherwise; for each of the three states, the integer
`wxd_TreeListCtrl_GetCheckedState` returns for it makes `wxd_TreeListCtrl_CheckItem` hand that
state over again; and `wxd_TreeListCtrl_GetCheckedState` only returns `0`, `1` or `2`. -/
theorem C10_check_state_roundtrip (T : Toolkit)
    (h01 : T.wxCHK_UNCHECKED ≠ T.wxCHK_CHECKED)
    (h02 : T.wxCHK_UNCHECKED ≠ T.wxCHK_UNDETERMINED)
    (h12 : T.wxCHK_CHECKED ≠ T.wxCHK_UNDETERMINED) :
    (∀ (ctrl ctrl2 : wxTreeListCtrl) (item n : Int) (s : wxCheckBoxState),
      (wxd_TreeListCtrl_CheckItem T (some ctrl) item n).calls = [ToolkitCall.CheckItem ⟨item⟩ s] →
      ctrl2.GetCheckedState ⟨item⟩ = s →
      (wxd_TreeListCtrl_GetCheckedState T (some ctrl2) item).ret
        = if n = 0 ∨ n = 1 ∨ n = 2 then n else 0) ∧
    (∀ (ctrl ctrl2 : wxTreeListCtrl) (item : Int) (s : wxCheckBoxState),
      (s = T.wxCHK_UNCHECKED ∨ s = T.wxCHK_CHECKED ∨ s = T.wxCHK_UNDETERMINED) →
      ctrl2.GetCheckedState ⟨item⟩ = s →
      (wxd_TreeListCtrl_CheckItem T (some ctrl) item
        (wxd_TreeListCtrl_GetCheckedState T (some ctrl2) item).ret).calls
        = [ToolkitCall.CheckItem ⟨item⟩ s]) ∧
    (∀ (self : Option wxTreeListCtrl) (item : Int),
      (wxd_TreeListCtrl_GetCheckedState T self item).ret = 0 ∨
      (wxd_TreeListCtrl_GetCheckedState T self item).ret = 1 ∨
      (wxd_TreeListCtrl_GetCheckedState T self item).ret = 2) := by
  have h10 : T.wxCHK_CHECKED ≠ T.wxCHK_UNCHECKED := fun h => h01 h.symm
  have h20 : T.wxCHK_UNDETERMINED ≠ T.wxCHK_UNCHECKED := fun h => h02 h.symm
  have h21 : T.wxCHK_UNDETERMINED ≠ T.wxCHK_CHECKED := fun h => h12 h.symm
  refine ⟨?_, ?_, ?_⟩
  · intro ctrl ctrl2 item n s hcall hs
    by_cases h1 : n = 1
    · subst h1
      simp [wxd_TreeListCtrl_CheckItem] at hcall
      simp [wxd_TreeListCtrl_GetCheckedState, hs, ← hcall]
    · by_cases h2 : n = 2
      · subst h2
        simp [wxd_TreeListCtrl_CheckItem] at hcall
        simp [wxd_TreeListCtrl_GetCheckedState, hs, ← hcall, h21]
      · simp [wxd_TreeListCtrl_CheckItem, h1, h2] at hcall
        simp only [wxd_TreeListCtrl_GetCheckedState, hs, ← hcall, h01, h02, if_false]
        by_cases h0 : n = 0
        · simp [h0]
        · simp [h0, h1, h2]
  · intro ctrl ctrl2 item s hs hget
    rcases hs with hs | hs | hs
    · subst hs
      simp [wxd_TreeListCtrl_CheckItem, wxd_TreeListCtrl_GetCheckedState, hget, h01, h02]
    · subst hs
      simp [wxd_TreeListCtrl_CheckItem, wxd_TreeListCtrl_GetCheckedState, hget]
    · subst hs
      simp [wxd_TreeListCtrl_CheckItem, wxd_TreeListCtrl_GetCheckedState, hget, h21]
  · intro self item
    cases self with
    | none => exact Or.inl rfl
    | some ctrl =>
      simp only [wxd_TreeListCtrl_GetCheckedState]
      by_cases hc : ctrl.GetCheckedState ⟨item⟩ = T.wxCHK_CHECKED
      · simp [hc]
      · by_cases hu : ctrl.GetCheckedState ⟨item⟩ = T.wxCHK_UNDETERMINED
        · rw [if_neg hc, if_pos hu]
          exact Or.inr (Or.inr rfl)
        · rw [if_neg hc, if_neg hu]
          exact Or.inl rfl

/-- C10 at concrete inputs, with the enumerators `0, 1, 2`: `CheckItem` with `2` hands over
the undetermined state, a control reporting that state makes `GetCheckedState` return `2`;
`CheckItem` with `9` hands over the unchecked state, which reads back as `0`. -/
theorem C10_check_state_roundtrip_sample :
    (wxd_TreeListCtrl_GetCheckedState sampleToolkit (some (sampleCtrl [] [⟨2⟩])) 5).ret = 2 ∧
    (wxd_TreeListCtrl_GetCheckedState sampleToolkit (some (sampleCtrl [] [⟨0⟩])) 5).ret = 0 ∧
    (wxd_TreeListCtrl_CheckItem sampleToolkit (some (sampleCtrl [] [])) 5
      (wxd_TreeListCtrl_GetCheckedState sampleToolkit (some (sampleCtrl [] [⟨2⟩])) 5).ret).calls
      = [ToolkitCall.CheckItem ⟨5⟩ ⟨2⟩] := by
  have h := C10_check_state_roundtrip sampleToolkit (by decide) (by decide) (by decide)
  refine ⟨?_, ?_, ?_⟩
  · exact h.1 (sampleCtrl [] []) (sampleCtrl [] [⟨2⟩]) 5 2 ⟨2⟩ (by decide) (by decide)
  · exact h.1 (sampleCtrl [] []) (sampleCtrl [] [⟨0⟩]) 5 9 ⟨0⟩ (by decide) (by decide)
  · exact h.2.1 (sampleCtrl [] []) (sampleCtrl [] [⟨2⟩]) 5 ⟨2⟩ (Or.inr (Or.inr rfl))
      (by decide)

/-- C11: with a null text, and for every control (null or not) and every other argument,
`AppendItem`, `PrependItem` and `InsertItem` return `0`, `AppendColumn` and `WidthFor` return
`-1`, and `SetItemText` returns; none of the six makes a toolkit call, so the control is left
as it was. -/
theorem C11_null_text (T : Toolkit) (self : Option wxTreeListCtrl)
    (parent previous item col width align : Int) :
    ((wxd_TreeListCtrl_AppendItem self parent none).calls = [] ∧
      (wxd_TreeListCtrl_AppendItem self parent none).ret = 0) ∧
    ((wxd_TreeListCtrl_PrependItem self parent none).calls = [] ∧
      (wxd_TreeListCtrl_PrependItem self parent none).ret = 0) ∧
    ((wxd_TreeListCtrl_InsertItem self parent previous none).calls = [] ∧
      (wxd_TreeListCtrl_InsertItem self parent previous none).ret = 0) ∧
    ((wxd_TreeListCtrl_AppendColumn T self none width align).calls = [] ∧
      (wxd_TreeListCtrl_AppendColumn T self none width align).ret = -1) ∧
    ((wxd_TreeListCtrl_WidthFor self none).calls = [] ∧
      (wxd_TreeListCtrl_WidthFor self none).ret = -1) ∧
    (wxd_TreeListCtrl_SetItemText self item col none).calls = [] := by
  cases self with
  | none => exact ⟨⟨rfl, rfl⟩, ⟨rfl, rfl⟩, ⟨rfl, rfl⟩, ⟨rfl, rfl⟩, ⟨rfl, rfl⟩, rfl⟩
  | some ctrl => exact ⟨⟨rfl, rfl⟩, ⟨rfl, rfl⟩, ⟨rfl, rfl⟩, ⟨rfl, rfl⟩, ⟨rfl, rfl⟩, rfl⟩

/-- C11 at a concrete input: on a live control, `AppendItem` under the root with a null text
returns `0` without a toolkit call, while with the text `A` it calls the toolkit and returns
the new item's handle. -/
theorem C11_null_text_sample :
    ((wxd_TreeListCtrl_AppendItem (some (sampleCtrl [] [])) 1000 none).calls = [] ∧
      (wxd_TreeListCtrl_AppendItem (some (sampleCtrl [] [])) 1000 none).ret = 0) ∧
    (wxd_TreeListCtrl_AppendItem (some (sampleCtrl [] [])) 1000 (some "A")).calls
      = [ToolkitCall.AppendItem ⟨1000⟩ "A"] ∧
    (wxd_TreeListCtrl_AppendItem (some (sampleCtrl [] [])) 1000 (some "A")).ret = 1001 :=
  ⟨(C11_null_text sampleToolkit (some (sampleCtrl [] [])) 1000 0 0 0 0 0).1, by decide,
    by decide⟩

/-- C12: in each of the six `wxd_SystemOptions_` functions a null name gives the same toolkit
calls and the same return value as the name `""`, for every options store and every other
argument, and in `SetOption_String` a null value gives the same as the value `""`; the
store after the call is therefore the same too, whatever the toolkit's calls do to it. -/
theorem C12_null_name_is_empty (T : Toolkit) (opts : wxSystemOptions)
    (effect : wxSystemOptions → ToolkitCall → wxSystemOptions) (name value : Option String)
    (ivalue : Int) (buffer : CharBuffer) (buffer_len : Int) :
    (wxd_SystemOptions_SetOption_String none value
        = wxd_SystemOptions_SetOption_String (some "") value ∧
      storeAfter effect opts (wxd_SystemOptions_SetOption_String none value)
        = storeAfter effect opts (wxd_SystemOptions_SetOption_String (some "") value)) ∧
    (wxd_SystemOptions_SetOption_String name none
        = wxd_SystemOptions_SetOption_String name (some "") ∧
      storeAfter effect opts (wxd_SystemOptions_SetOption_String name none)
        = storeAfter effect opts (wxd_SystemOptions_SetOption_String name (some ""))) ∧
    (wxd_SystemOptions_SetOption_Int none ivalue
        = wxd_SystemOptions_SetOption_Int (some "") ivalue ∧
      storeAfter effect opts (wxd_SystemOptions_SetOption_Int none ivalue)
        = storeAfter effect opts (wxd_SystemOptions_SetOption_Int (some "") ivalue)) ∧
    (wxd_SystemOptions_GetOption_String T opts none buffer buffer_len
        = wxd_SystemOptions_GetOption_String T opts (some "") buffer buffer_len ∧
      storeAfter effect opts (wxd_SystemOptions_GetOption_String T opts none buffer buffer_len)
        = storeAfter effect opts
            (wxd_SystemOptions_GetOption_String T opts (some "") buffer buffer_len)) ∧
    (wxd_SystemOptions_GetOption_Int opts none = wxd_SystemOptions_GetOption_Int opts (some "") ∧
      storeAfter effect opts (wxd_SystemOptions_GetOption_Int opts none)
        = storeAfter effect opts (wxd_SystemOptions_GetOption_Int opts (some ""))) ∧
    (wxd_SystemOptions_HasOption opts none = wxd_SystemOptions_HasOption opts (some "") ∧
      storeAfter effect opts (wxd_SystemOptions_HasOption opts none)
        = storeAfter effect opts (wxd_SystemOptions_HasOption opts (some ""))) ∧
    (wxd_SystemOptions_IsFalse opts none = wxd_SystemOptions_IsFalse opts (some "") ∧
      storeAfter effect opts (wxd_SystemOptions_IsFalse opts none)
        = storeAfter effect opts (wxd_SystemOptions_IsFalse opts (some ""))) := by
  refine ⟨⟨rfl, rfl⟩, ⟨rfl, rfl⟩, ⟨rfl, rfl⟩, ⟨rfl, rfl⟩, ⟨rfl, rfl⟩, ⟨rfl, rfl⟩, ⟨rfl, rfl⟩⟩

/-- C12 at a concrete input: `SetOption_String` with a null name and a null value makes the
toolkit call `SetOption("", "")`; on the sample store, which has no option `""`, the store
afterwards has it, with the empty value, and `HasOption` with a null name asks about `""`. -/
theorem C12_null_name_is_empty_sample :
    (wxd_SystemOptions_SetOption_String none none).calls
      = [ToolkitCall.SystemOptions_SetOption_String "" ""] ∧
    (wxd_SystemOptions_HasOption sampleOptions none).ret = false ∧
    (wxd_SystemOptions_HasOption
      (storeAfter sampleEffect sampleOptions (wxd_SystemOptions_SetOption_String none none))
      none).ret = true ∧
    (wxd_SystemOptions_HasOption
      (storeAfter sampleEffect sampleOptions (wxd_SystemOptions_SetOption_String none none))
      none).ret
      = (wxd_SystemOptions_HasOption
          (storeAfter sampleEffect sampleOptions
            (wxd_SystemOptions_SetOption_String (some "") (some "")))
          (some "")).ret := by
  have h1 :=
    (C12_null_name_is_empty sampleToolkit sampleOptions sampleEffect none none 0 none 0).1.2
  have h2 :=
    (C12_null_name_is_empty sampleToolkit sampleOptions sampleEffect (some "") none 0 none
      0).2.1.2
  refine ⟨by decide, by decide, by decide, ?_⟩
  rw [h1, h2]
  exact congrArg Outcome.ret
    (C12_null_name_is_empty sampleToolkit
      (storeAfter sampleEffect sampleOptions
        (wxd_SystemOptions_SetOption_String (some "") (some "")))
      sampleEffect none none 0 none 0).2.2.2.2.2.1.1

end WxDragon
